import Mathlib

/-!
Verification development for the score-code generator in
`src/sasctl/pzmm/write_score_code.py`.

The Python module builds the text of a Python scoring function by string
concatenation (class `ScoreCode`, shared string buffer `ScoreCode.score_code`),
and converts a MAS-format DS2 wrapper to CAS format by a single regex
alternation pass over three fixed literal patterns (`convert_mas_to_cas`).

This file shallow-embeds that text-building logic.  Pure Python string
operations are translated directly; results of external collaborators
(the pandas column statistics, Python's `str.isidentifier`, Python's float
formatting, the remote model-repository lookups) are passed in as explicit
parameters.  The embedding covers calls of `write_score_code` without the
H2O / binary-string keyword arguments; the H2O branches of the individual
helpers are embedded where the helpers themselves contain them.
-/

set_option maxRecDepth 100000

/-! ## Generic string machinery -/

/-- Boolean prefix test on character lists. -/
def pfx : List Char → List Char → Bool
  | [], _ => true
  | _ :: _, [] => false
  | a :: as, b :: bs => a == b && pfx as bs

/-- Substring test on character lists: does `k` occur anywhere in `s`? -/
def containsL (k : List Char) : List Char → Bool
  | [] => pfx k []
  | c :: cs => pfx k (c :: cs) || containsL k cs

/-- Number of positions of `s` at which `k` occurs (occurrences may overlap). -/
def countOccurL (k : List Char) : List Char → Nat
  | [] => if pfx k [] then 1 else 0
  | c :: cs => (if pfx k (c :: cs) then 1 else 0) + countOccurL k cs

/-- Substring test on strings. -/
def strContains (k s : String) : Bool := containsL k.toList s.toList

/-- Occurrence count on strings. -/
def countOccur (k s : String) : Nat := countOccurL k.toList s.toList

/-- Boolean test: `p` is a leading segment of `s`. -/
def strStartsWith (p s : String) : Bool := pfx p.toList s.toList

/-- Boolean test: `p` is a trailing segment of `s`. -/
def strEndsWith (p s : String) : Bool := pfx p.toList.reverse s.toList.reverse

/-- Join a list of strings with a separator, like Python `sep.join(xs)`. -/
def joinSep (sep : String) (xs : List String) : String := String.intercalate sep xs

/-- Join with a comma and space, the ubiquitous `", ".join(...)`. -/
def joinComma (xs : List String) : String := joinSep (", ") xs

/-- Python `str.split(sep)` for a single-character separator: maximal split,
keeping empty pieces, and `[""]` on the empty string. -/
def splitCh (c : Char) : List Char → List (List Char)
  | [] => [[]]
  | d :: ds =>
    if d == c then [] :: splitCh c ds
    else
      match splitCh c ds with
      | [] => [[d]]
      | g :: gs => (d :: g) :: gs

/-- First index at which `k` occurs in `s`, if any. -/
def findIdxL (k : List Char) : List Char → Option Nat
  | [] => if pfx k [] then some 0 else none
  | c :: cs =>
    if pfx k (c :: cs) then some 0
    else
      match findIdxL k cs with
      | some n => some (n + 1)
      | none => none

/-- Python `str.find`: first index of the pattern, `-1` when absent. -/
def pyFind (sub s : String) : Int :=
  match findIdxL sub.toList s.toList with
  | some n => (n : Int)
  | none => -1

/-- Normalise a Python slice index against a length: negative indices count
from the end and everything is clamped into `[0, len]`. -/
def pyIdx (len : Nat) (i : Int) : Nat :=
  if i < 0 then (len + i).toNat else min i.toNat len

/-- Python slice `s[a:b]` with possibly negative bounds. -/
def pySlice (s : String) (a b : Int) : String :=
  let l := s.toList
  String.mk ((l.take (pyIdx l.length b)).drop (pyIdx l.length a))

/-- Python slice `s[a:]`. -/
def pySliceFrom (s : String) (a : Int) : String :=
  String.mk (s.toList.drop (pyIdx s.toList.length a))

/-- Python `f"{v}"` for a list of integers, e.g. `[1, 0]`. -/
def pyIntList (l : List Int) : String :=
  "[" ++ joinComma (l.map (fun i => toString i)) ++ "]"

/-- Python `f"{v}"` for a list of strings (repr with single quotes). -/
def pyStrList (l : List String) : String :=
  "[" ++ joinComma (l.map (fun s => "\x27" ++ s ++ "\x27")) ++ "]"

/-! ## Python truthiness and external-collaborator parameters -/

/-- Truthiness of the optional `target_values` argument: `None` and the empty
list are falsy. -/
def pyTruthyTV : Option (List Int) → Bool
  | none => false
  | some [] => false
  | some (_ :: _) => true

/-- Truthiness of the optional `predict_threshold` argument: `None` and `0`
are falsy. -/
def pyTruthyQ : Option Rat → Bool
  | none => false
  | some q => q != 0

/-- Results of the external collaborators that the generator interpolates
into text: Python float formatting, `str.isidentifier`, and the pandas
per-column statistics used by the imputation stage. -/
structure PyEnv where
  floatStr : Rat → String
  isident : String → Bool
  colIsBinary : String → Bool
  colMode : String → String
  colMean : String → String

/-- ASCII approximation of Python `str.isidentifier`, used to instantiate
`PyEnv.isident` on concrete inputs. -/
def pyIsIdentAscii (s : String) : Bool :=
  match s.toList with
  | [] => false
  | c :: cs => (c.isAlpha || c == '_') && cs.all (fun d => d.isAlphanum || d == '_')

/-- Concrete environment for evaluating the embedding on sample inputs. -/
def envDefault : PyEnv :=
  { floatStr := fun q => toString q
    isident := pyIsIdentAscii
    colIsBinary := fun _ => false
    colMode := fun _ => "0"
    colMean := fun _ => "8.5" }

/-! ## The metrics argument after the flattening step

`_predictions_to_metrics` replaces a one-element metrics list by its sole
element, so the downstream helpers see either a Python `str` or a `list`;
their first branch tests `len(metrics) == 1 or isinstance(metrics, str)`. -/

inductive PyMetrics where
  | s (v : String)
  | l (vs : List String)
deriving DecidableEq

/-- Python `f"{metrics}"` on the flattened metrics value. -/
def fmtM : PyMetrics → String
  | .s v => v
  | .l vs => pyStrList vs

/-! ## `_predictions_to_metrics` and its three emitters -/

/-- Translation of `ScoreCode._no_targets_no_thresholds`: passthrough of the
raw prediction, splitting multi-valued predictions across the metrics. -/
def noTargetsNoThresholds (metrics : PyMetrics) (h2oModel : Bool) : String :=
  match metrics with
  | .s v =>
    if h2oModel then
      "    " ++ v ++ " = prediction[1][0]\n\n    return " ++ v
    else
      "    " ++ v ++ " = prediction\n\n    return " ++ v
  | .l vs =>
    if vs.length == 1 then
      if h2oModel then
        "    " ++ fmtM (.l vs) ++ " = prediction[1][0]\n\n    return " ++ fmtM (.l vs)
      else
        "    " ++ fmtM (.l vs) ++ " = prediction\n\n    return " ++ fmtM (.l vs)
    else
      if h2oModel then
        "    " ++ vs.getD 0 "" ++ " = prediction[1][0]\n"
          ++ String.join ((List.range (vs.length - 1)).map (fun i =>
               "    " ++ vs.getD (i + 1) "" ++ " = prediction[1][" ++ toString (i + 1) ++ "]\n"))
          ++ "\n    return " ++ joinComma vs
      else
        "    " ++ vs.getD 0 "" ++ " = prediction[0]\n"
          ++ String.join ((List.range (vs.length - 1)).map (fun i =>
               "    " ++ vs.getD (i + 1) "" ++ " = prediction[" ++ toString (i + 1) ++ "]\n"))
          ++ "\n    return " ++ joinComma vs

/-- The threshold text interpolated by `_binary_target`: a falsy
`predict_threshold` (absent or zero) is replaced by the default `0.5`. -/
def resolvedThreshold (env : PyEnv) (threshold : Option Rat) : String :=
  if pyTruthyQ threshold then env.floatStr (threshold.getD 0) else "0.5"

/-- Translation of `ScoreCode._binary_target`: threshold classification for a
single target value equal to 1. -/
def binaryTarget (env : PyEnv) (metrics : PyMetrics) (threshold : Option Rat)
    (h2oModel : Bool) : Except String String :=
  let thrS := resolvedThreshold env threshold
  match metrics with
  | .s v =>
    if h2oModel then
      .ok ("    if prediction[1][2] > " ++ thrS ++ ":\n        " ++ v
        ++ " = 1\n    else:\n        " ++ v ++ " = 0\n\nreturn " ++ v)
    else
      .ok ("    if prediction > " ++ thrS ++ ":\n        " ++ v
        ++ " = 1\n    else:\n        " ++ v ++ " = 0\n\nreturn " ++ v)
  | .l vs =>
    if vs.length == 1 then
      if h2oModel then
        .ok ("    if prediction[1][2] > " ++ thrS ++ ":\n        " ++ fmtM (.l vs)
          ++ " = 1\n    else:\n        " ++ fmtM (.l vs) ++ " = 0\n\nreturn " ++ fmtM (.l vs))
      else
        .ok ("    if prediction > " ++ thrS ++ ":\n        " ++ fmtM (.l vs)
          ++ " = 1\n    else:\n        " ++ fmtM (.l vs) ++ " = 0\n\nreturn " ++ fmtM (.l vs))
    else if vs.length == 2 then
      if h2oModel then
        .ok ("    if prediction[1][2] > " ++ thrS ++ ":\n        " ++ vs.getD 0 ""
          ++ " = 1\n    else:\n        " ++ vs.getD 0 "" ++ " = 0\n\nreturn " ++ vs.getD 0 ""
          ++ ", prediction[1][2]")
      else
        .ok ("    if prediction > " ++ thrS ++ ":\n        " ++ vs.getD 0 ""
          ++ " = 1\n    else:\n        " ++ vs.getD 0 "" ++ " = 0\n\nreturn " ++ vs.getD 0 ""
          ++ ", prediction")
    else
      .error "Too many metrics were provided for a binary model."

/-- The exact `ValueError` text of the metrics/target-values cardinality
mismatch in `_nonbinary_targets` (including its missing inter-line spaces). -/
def invalidTargetCountMsg : String :=
  "An invalid number of target values were provided with respect to the size "
  ++ "of the metrics provided. The function is expecting metrics to be one, "
  ++ "the same lengthas the target values list, or one more than the lengthof "
  ++ "the target values list."

/-- Translation of `ScoreCode._nonbinary_targets`: multiclass handling for
more than one target value. -/
def nonbinaryTargets (metrics : PyMetrics) (targetValues : List Int)
    (h2oModel : Bool) : Except String String :=
  match metrics with
  | .s v =>
    if h2oModel then
      .ok ("    target_values = " ++ pyIntList targetValues ++ "\n    " ++ v
        ++ " = target_values[prediction[1][1:].index(max(prediction[1][1:]))]\n    return " ++ v)
    else
      .ok ("    target_values = " ++ pyIntList targetValues ++ "\n    " ++ v
        ++ " = target_values[prediction.index(max(prediction))]\n    return " ++ v)
  | .l vs =>
    if vs.length == 1 then
      if h2oModel then
        .ok ("    target_values = " ++ pyIntList targetValues ++ "\n    " ++ fmtM (.l vs)
          ++ " = target_values[prediction[1][1:].index(max(prediction[1][1:]))]\n    return "
          ++ fmtM (.l vs))
      else
        .ok ("    target_values = " ++ pyIntList targetValues ++ "\n    " ++ fmtM (.l vs)
          ++ " = target_values[prediction.index(max(prediction))]\n    return " ++ fmtM (.l vs))
    else if vs.length == targetValues.length || vs.length == targetValues.length + 1 then
      if h2oModel then
        .ok ("    target_values = " ++ pyIntList targetValues ++ "\n"
          ++ String.join ((List.range (vs.length - 1)).map (fun i =>
               "    " ++ vs.getD (i + 1) "" ++ " = prediction[1][" ++ toString (i + 1) ++ "]\n"))
          ++ (if vs.length == targetValues.length + 1 then
               "    " ++ vs.getD 0 ""
                 ++ " = target_values[prediction[1][1:].index(max(prediction[1][1:]))]\n"
                 ++ "    return " ++ joinComma vs
             else
               "    return " ++ joinComma vs))
      else
        .ok ("    target_values = " ++ pyIntList targetValues ++ "\n"
          ++ String.join ((List.range (vs.length - 1)).map (fun i =>
               "    " ++ vs.getD (i + 1) "" ++ " = prediction[" ++ toString (i + 1) ++ "]\n"))
          ++ (if vs.length == targetValues.length + 1 then
               "    " ++ vs.getD 0 "" ++ " = target_values[prediction.index(max(prediction))]\n"
                 ++ "    return " ++ joinComma vs
             else
               "    return " ++ joinComma vs))
    else
      .error invalidTargetCountMsg

/-- The `ValueError` raised when a threshold arrives without target values. -/
def thresholdWithoutTargetMsg : String :=
  "A threshold was provided to interpret the prediction results, however "
  ++ "a target value was not, therefore, a valid output cannot be generated."

/-- The `ValueError` raised for a single target value different from 1. -/
def singleNonOneTargetMsg : String :=
  "For non-binary target variables, please provide at least two target values."

/-- Translation of `ScoreCode._predictions_to_metrics`: flatten a singleton
metrics list, then dispatch on target values and threshold.  The returned
string is the text appended to the score-code buffer; `.error` models the
`ValueError`s raised before anything is appended. -/
def predictionsToMetrics (env : PyEnv) (metrics : List String)
    (targetValues : Option (List Int)) (predictThreshold : Option Rat)
    (h2oModel : Bool) : Except String String :=
  let m : PyMetrics :=
    match metrics with
    | [x] => .s x
    | xs => .l xs
  if !(pyTruthyTV targetValues || pyTruthyQ predictThreshold) then
    .ok (noTargetsNoThresholds m h2oModel)
  else if !pyTruthyTV targetValues && pyTruthyQ predictThreshold then
    .error thresholdWithoutTargetMsg
  else
    let tv := targetValues.getD []
    if tv.length > 1 then
      nonbinaryTargets m tv h2oModel
    else if tv.length == 1 && tv.getD 0 0 == 1 then
      binaryTarget env m predictThreshold h2oModel
    else if tv.length == 1 && tv.getD 0 0 != 1 then
      .error singleNonOneTargetMsg
    else
      .ok ""

/-! ## `_write_imports` -/

/-- Translation of `ScoreCode._write_imports`.  `session` models the result of
`current_session().version_info()`: `none` when there is no session (the
`AttributeError` path), `some true` for SAS Viya 3.5, `some false` otherwise. -/
def writeImports (pickleType : String) (session : Option Bool)
    (mojoModel binaryH2oModel : Bool) (binaryString : Option String) : String :=
  let pt := if pickleType == "" then "pickle" else pickleType
  "import math\nimport " ++ pt
    ++ "\nimport pandas as pd\nimport numpy as np\nfrom pathlib import Path\n\n"
    ++ (match session with
        | some false => "import settings\n\n"
        | _ => "")
    ++ (if mojoModel || binaryH2oModel then
          "import h2o\nimport gzip\nimport shutil\nimport os\n\nh2o.init()\n\n"
        else
          match binaryString with
          | some bs =>
            "import codecs\n\nbinary_string = \"" ++ bs ++ "\"\nmodel = " ++ pt
              ++ ".loads(codecs.decode(binary_string.encode(), \"base64\"))\n\n"
          | none => "")

/-! ## Path.with_suffix -/

/-- Index of the last occurrence of a character, if any. -/
def lastIdx (c : Char) : List Char → Option Nat
  | [] => none
  | d :: ds =>
    match lastIdx c ds with
    | some n => some (n + 1)
    | none => if d == c then some 0 else none

/-- `str(Path(s).with_suffix(".zip"))`: replace the final extension of the
last path component by `.zip` (appending when there is none). -/
def withSuffixZip (s : String) : String :=
  let l := s.toList
  let dir : List Char :=
    match lastIdx '/' l with
    | some i => l.take (i + 1)
    | none => []
  let name : List Char :=
    match lastIdx '/' l with
    | some i => l.drop (i + 1)
    | none => l
  let stem : List Char :=
    match lastIdx '.' name with
    | some i => if 0 < i then name.take i else name
    | none => name
  String.mk (dir ++ stem) ++ ".zip"

/-! ## `_viya35_model_load` and `_viya4_model_load`

Each returns the pair (text appended to the buffer, string returned to the
caller for the lazy-load block).  The parameter order is that of the Python
signature: `(model_id, model_file_name, pickle_type=None, ...)` for Viya 3.5
and `(model_file_name, pickle_type=None, ...)` for Viya 4.  `write_score_code`
calls them positionally as `(model_id, pickle_type, model_file_name)` and
`(pickle_type, model_file_name)`. -/

def viya35ModelLoad (modelId modelFileName : String) (pickleType : Option String)
    (mojoModel binaryH2oModel : Bool) : String × String :=
  let pt :=
    match pickleType with
    | none => "pickle"
    | some s => if s == "" then "pickle" else s
  if mojoModel then
    ("model_path = Path(\"/models/resources/viya/" ++ modelId
       ++ "\")\nwith gzip.open(model_path / \"" ++ modelFileName
       ++ "\", \"r\") as fileIn, open(model_path / \"" ++ withSuffixZip modelFileName
       ++ "\", \"wb\") as fileOut:\n    shutil.copyfileobj(fileIn, fileOut)\nos.chmod(model_path / \""
       ++ withSuffixZip modelFileName ++ "\", 0o777)\nmodel = h2o.import_mojo(model_path / \""
       ++ withSuffixZip modelFileName ++ "\")\n\n",
     "        model = h2o.import_mojo(model_path / \"" ++ withSuffixZip modelFileName ++ "\")")
  else if binaryH2oModel then
    ("model = h2o.load(Path(\"/models/resources/viya/" ++ modelId ++ "/"
       ++ modelFileName ++ "\"))\n\n",
     "        model = h2o.load(Path(\"/models/resources/viya/" ++ modelId ++ "/"
       ++ modelFileName ++ "\"))")
  else
    ("model_path = Path(\"/models/resources/viya/" ++ modelId
       ++ "\")\nwith open(model_path / \"" ++ modelFileName
       ++ "\", \"rb\") as pickle_model:\n    model = " ++ pt ++ ".load(pickle_model)\n\n",
     "        model_path = Path(\"/models/resources/viya/" ++ modelId
       ++ "\")\n        with open(model_path / \"" ++ modelFileName
       ++ "\", \"rb\") as pickle_model:\n            model = " ++ pt ++ ".load(pickle_model)")

def viya4ModelLoad (modelFileName : String) (pickleType : Option String)
    (mojoModel binaryH2oModel : Bool) : String × String :=
  let pt :=
    match pickleType with
    | none => "pickle"
    | some s => if s == "" then "pickle" else s
  if mojoModel then
    ("with gzip.open(Path(settings.pickle_path) / \"\x7bmodel_file_name\x7d\", \"r\") as fileIn, "
       ++ "open(Path(settings.pickle_path) / \"" ++ withSuffixZip modelFileName
       ++ "\", \"wb\") as fileOut:\n    shutil.copyfileobj(fileIn, fileOut)\nos.chmod(Path(settings.pickle_path) / \""
       ++ withSuffixZip modelFileName
       ++ "\", 0o777)\nmodel = h2o.import_mojo(Path(settings.pickle_path) / \""
       ++ withSuffixZip modelFileName ++ "\")\n\n",
     "        model = h2o.import_mojo(Path(settings.pickle_path) / \""
       ++ withSuffixZip modelFileName ++ "\")\n\n")
  else if binaryH2oModel then
    ("model = h2o.load(Path(settings.pickle_path))\n\n",
     "        model = h2o.load(Path(settings.pickle_path))\n\n")
  else
    ("with open(Path(settings.pickle_path) / \"" ++ modelFileName
       ++ "\", \"rb\") as pickle_model:\n    model = " ++ pt ++ ".load(pickle_model)\n\n",
     "        with open(Path(settings.pickle_path) / \"" ++ modelFileName
       ++ "\", \"rb\") as pickle_model:\n                model = " ++ pt
       ++ ".load(pickle_model)\n\n")

/-! ## Missing-value imputation -/

/-- Translation of `ScoreCode._impute_numeric`.  `isBinary`, `modeVal` and
`meanVal` stand for `data[var].isin([0, 1]).all()`, the rendered
`data[var].mode()[0]` and the rendered `data[var].mean()`. -/
def imputeNumeric (var : String) (isBinary : Bool) (modeVal meanVal : String) : String :=
  if isBinary then
    "    try:\n        if math.isnan(" ++ var ++ "):\n            " ++ var ++ " = "
      ++ modeVal ++ "\n    except TypeError:\n        " ++ var ++ " = " ++ modeVal ++ "\n"
  else
    "    try:\n        if math.isnan(" ++ var ++ "):\n            " ++ var ++ " = "
      ++ meanVal ++ "\n    except TypeError\n        " ++ var ++ " = " ++ meanVal ++ "\n"

/-- Translation of `ScoreCode._impute_char`. -/
def imputeChar (var : String) : String :=
  "    try:\n        " ++ var ++ " = " ++ var ++ ".strip()\n    except AttributeError:\n        "
    ++ var ++ " = \"\"\n"

/-- Numeric-type test used by `_impute_missing_values` and `_predict_method`:
`any(t in dtype for t in ["int", "float"])`. -/
def dtypeIsNumeric (dtype : String) : Bool :=
  strContains ("int") dtype || strContains ("float") dtype

/-- Translation of `ScoreCode._impute_missing_values`. -/
def imputeMissingValues (env : PyEnv) (varList dtypeList : List String) : String :=
  String.join ((varList.zip dtypeList).map (fun p =>
    if dtypeIsNumeric p.2 then
      imputeNumeric p.1 (env.colIsBinary p.1) (env.colMode p.1) (env.colMean p.1)
    else
      imputeChar p.1)) ++ "\n"

/-! ## `_predict_method` -/

/-- Translation of `ScoreCode._predict_method`.  `dtypeList` is `some _`
exactly on the H2O path; `methodName` is `method.__name__`. -/
def predictMethod (methodName : String) (varList : List String)
    (dtypeList : Option (List String)) (statsmodelsModel : Bool) : String :=
  let columnNames := joinComma (varList.map (fun c => "\"" ++ c ++ "\""))
  match dtypeList with
  | some dtypes =>
    let columnTypes := (varList.zip dtypes).map (fun p =>
      "\"" ++ p.1 ++ "\" : \"" ++ (if dtypeIsNumeric p.2 then "numeric" else "string") ++ "\"")
    "    input_array = pd.DataFrame([[" ++ joinComma varList ++ "]],\n"
      ++ "                               columns=[" ++ columnNames ++ "],\n"
      ++ "                               dtype=float,\n"
      ++ "                               index=[0])\n    column_types = \x7b"
      ++ pyStrList columnTypes
      ++ "\x7d\n    h2o_array = h2o.H2OFrame(input_array, column_types=column_types)\n"
      ++ "    prediction = model." ++ methodName ++ "(h2o_array)\n"
      ++ "    prediction = h2o.as_list(prediction, use_pandas=False)\n"
  | none =>
    if statsmodelsModel then
      "    inputArray = pd.DataFrame([[1.0, " ++ joinComma varList ++ "]],\n"
        ++ "                             columns=[\"const\", " ++ columnNames ++ "],\n"
        ++ "                             dtype=float)\n    prediction = model."
        ++ methodName ++ "(input_array)\n"
    else
      "    input_array = pd.DataFrame([[" ++ joinComma varList ++ "]],\n"
        ++ "                              columns=[" ++ columnNames ++ "],\n"
        ++ "                              dtype=float)\n    prediction = model."
        ++ methodName ++ "(input_array)\n"

/-! ## `_check_for_invalid_variable_names` -/

/-- The `SyntaxError` message enumerating the invalid names. -/
def invalidNamesMsg (invalid : List String) : String :=
  "The following are not valid variable names: " ++ joinComma invalid
    ++ ". Please confirm that all variable names can be used as Python variables."
    ++ " E.g. `str(name).isidentifier() == True`."

/-- The `ValueError` raised by `_get_model_id` when no model was provided. -/
def noModelIdMsg : String :=
  "No model identification was provided. Python score code generation for "
  ++ "SAS Viya 3.5 requires the model's UUID."

/-! ## `write_score_code` -/

/-- Arguments of one `write_score_code` invocation (the paths without the
H2O/MOJO/binary-string keyword arguments; `statsmodels_model` is kept).
`sessionVersionIs35` models the session probe as in `writeImports`;
`modelId` is the UUID that `_get_model_id` resolves for a Viya 3.5 session
(`none` models the `model=None` failure). -/
structure ScoreArgs where
  modelPrefix : String
  inputVarList : List String
  inputDtypesList : List String
  predictMethodName : String
  metrics : List String
  modelFileName : String
  pickleType : String
  predictThreshold : Option Rat
  targetValues : Option (List Int)
  missingValues : Bool
  statsmodelsModel : Bool
  sessionVersionIs35 : Option Bool
  modelId : Option String

/-- Translation of `ScoreCode.write_score_code` on the embedded paths.

`buf` is the incoming value of the shared class attribute
`ScoreCode.score_code`; the function appends to it and never resets it.
The result pairs the Python outcome (the generated score code returned in the
output mapping, or the raised error text) with the final value of the shared
buffer, which on an error keeps everything appended before the raise. -/
def writeScoreCode (env : PyEnv) (a : ScoreArgs) (buf : String) :
    Except String String × String :=
  let invalid := a.inputVarList.filter (fun n => !env.isident n)
  if 0 < invalid.length then
    (.error (invalidNamesMsg invalid), buf)
  else
    match a.sessionVersionIs35, a.modelId with
    | some true, none => (.error noModelIdMsg, buf)
    | sess, mid =>
      let modelId : Option String := if sess == some true then mid else none
      let buf1 := buf ++ writeImports a.pickleType sess false false none
      let load :=
        match modelId with
        | some m => viya35ModelLoad m a.pickleType (some a.modelFileName) false false
        | none => viya4ModelLoad a.pickleType (some a.modelFileName) false false
      let buf2 := buf1 ++ load.1
      let buf3 := buf2 ++ "def score" ++ a.modelPrefix ++ "(" ++ joinComma a.inputVarList
        ++ "):\n    \"Output: " ++ joinComma a.metrics ++ "\"\n\n"
      let buf4 := buf3 ++ "    try:\n        global model\n    except NameError:\n" ++ load.2
      let buf5 := buf4
        ++ (if a.missingValues then imputeMissingValues env a.inputVarList a.inputDtypesList
            else "")
      let buf6 := buf5 ++ predictMethod a.predictMethodName a.inputVarList none a.statsmodelsModel
      match predictionsToMetrics env a.metrics a.targetValues a.predictThreshold false with
      | .error e => (.error e, buf6)
      | .ok frag => (.ok (buf6 ++ frag), buf6 ++ frag)

/-! ## `convert_mas_to_cas`

The Python code builds a dict of three literal patterns, `re.escape`s the
keys, compiles their alternation, and substitutes in one pass.  `re.sub` with
an alternation of escaped literals scans left to right; at each position the
leftmost alternative that matches is replaced, the replacement is not
rescanned, and scanning resumes after the match. -/

/-- First pattern of the alternation matching at `s` (patterns are tried in
dict insertion order); empty patterns never match. -/
def firstMatch (keys : List (List Char × List Char)) (s : List Char) :
    Option (List Char × List Char) :=
  match keys with
  | [] => none
  | (k, r) :: ks => if !k.isEmpty && pfx k s then some (k, r) else firstMatch ks s

/-- Fuelled single left-to-right replacement pass. -/
def subAllF (keys : List (List Char × List Char)) : Nat → List Char → List Char
  | 0, s => s
  | _ + 1, [] => []
  | fuel + 1, c :: cs =>
    match firstMatch keys (c :: cs) with
    | some (k, r) => r ++ subAllF keys fuel (cs.drop (k.length - 1))
    | none => c :: subAllF keys fuel cs

/-- Single left-to-right replacement pass of an alternation of literal
patterns, the semantics of `pattern.sub` in `convert_mas_to_cas`. -/
def subAll (keys : List (List Char × List Char)) (s : List Char) : List Char :=
  subAllF keys s.length s

/-- One remote output-variable record, from `model["outputVariables"]`. -/
structure OutVar where
  name : String
  type : String
deriving DecidableEq

/-- One `dcl` declaration line of the loop in `convert_mas_to_cas`. -/
def dclLine (v : OutVar) : String :=
  "dcl " ++ (if v.type == "string" then "varchar(100) " else "double ") ++ v.name ++ ";\n"

/-- The `output_string` accumulated over `model["outputVariables"]`. -/
def dclString : List OutVar → String
  | [] => ""
  | v :: vs => dclLine v ++ dclString vs

/-- The `end_block` replacement: run-method epilogue whose call list strips
the type keywords from the `score(...)` signature found in the MAS text. -/
def endBlock (mas : String) : String :=
  let start := pyFind ("score(") mas
  let finish := pyFind (");") (pySliceFrom mas start)
  let scoreVars := pySlice mas (start + 6) (start + finish)
  let inputString := joinSep (" ")
    (((splitCh ' ' scoreVars.toList).map String.mk).filter (fun x =>
      x != "double" && x != "in_out" && x != "varchar(100)"))
  "method run();\n    set SASEP.IN;\n    score(" ++ inputString ++ ");\nend;\nenddata;"

/-- The first fixed pattern: the package-declaration header. -/
def masKey1 : String := "package pythonScore / overwrite=yes;"

/-- Its replacement: the data-step header. -/
def casRep1 : String := "data sasep.out;"

/-- The second fixed pattern: the integer declaration line. -/
def masKey2 : String := "dcl int resultCode revision;"

/-- Its replacement: double declaration plus one `dcl` line per output variable. -/
def casRep2 (outVars : List OutVar) : String :=
  "dcl double resultCode revision;\n" ++ dclString outVars

/-- The third fixed pattern: the end-of-package marker. -/
def masKey3 : String := "endpackage;"

/-- The ordered alternation handed to the replacement pass. -/
def masKeys (outVars : List OutVar) (mas : String) : List (List Char × List Char) :=
  [(masKey1.toList, casRep1.toList),
   (masKey2.toList, (casRep2 outVars).toList),
   (masKey3.toList, (endBlock mas).toList)]

/-- Translation of `ScoreCode.convert_mas_to_cas`.  `outVars` stands for the
remote lookup `mr.get_model(model)["outputVariables"]`. -/
def convertMasToCas (outVars : List OutVar) (mas : String) : String :=
  String.mk (subAll (masKeys outVars mas) mas.toList)

/-! ## Concrete invocations used by the claims -/

/-- The concrete scenario of the spec: predictors LOAN and MORTDUE, metrics
`["BAD"]`, target values `[1, 0]`, threshold unset, no session. -/
def c6Args : ScoreArgs :=
  { modelPrefix := "Model"
    inputVarList := ["LOAN", "MORTDUE"]
    inputDtypesList := ["float64", "float64"]
    predictMethodName := "predict"
    metrics := ["BAD"]
    modelFileName := "model.pickle"
    pickleType := "pickle"
    predictThreshold := none
    targetValues := some [1, 0]
    missingValues := false
    statsmodelsModel := false
    sessionVersionIs35 := none
    modelId := none }

/-- First of two consecutive invocations sharing the class-level buffer. -/
def firstCallArgs : ScoreArgs :=
  { modelPrefix := "First"
    inputVarList := ["A1"]
    inputDtypesList := ["float64"]
    predictMethodName := "predict"
    metrics := ["OUT"]
    modelFileName := "model.pickle"
    pickleType := "pickle"
    predictThreshold := none
    targetValues := none
    missingValues := false
    statsmodelsModel := false
    sessionVersionIs35 := none
    modelId := none }

/-- Second consecutive invocation, differing only in the model prefix. -/
def secondCallArgs : ScoreArgs :=
  { firstCallArgs with modelPrefix := "Second" }

/-! ## Claim theorems -/

/-- C1: for target values of length N > 1 the claim says a metrics list of
length N also gets argmax-selection code.  At metrics `["P0", "P1"]` and
target values `[10, 20]` (N = 2, metrics length N) the emitted code assigns
only `P1` and returns the never-assigned `P0` with no argmax anywhere, so the
generated function cannot run; the argmax selection appears only for metrics
length 1 or N + 1, and any other length raises the cardinality `ValueError`
exactly as the claim says. -/
theorem C1_len_eq_targets_no_argmax :
    predictionsToMetrics envDefault ["P0", "P1"] (some [10, 20]) none false =
      .ok ("    target_values = [10, 20]\n    P1 = prediction[1]\n    return P0, P1")
    ∧ strContains ("index(max(")
        ("    target_values = [10, 20]\n    P1 = prediction[1]\n    return P0, P1") = false
    ∧ strContains ("P0 =")
        ("    target_values = [10, 20]\n    P1 = prediction[1]\n    return P0, P1") = false
    ∧ strContains ("return P0, P1")
        ("    target_values = [10, 20]\n    P1 = prediction[1]\n    return P0, P1") = true
    ∧ predictionsToMetrics envDefault ["L", "Q", "R"] (some [10, 20]) none false =
      .ok ("    target_values = [10, 20]\n    Q = prediction[1]\n    R = prediction[2]\n"
        ++ "    L = target_values[prediction.index(max(prediction))]\n    return L, Q, R")
    ∧ predictionsToMetrics envDefault ["A", "B", "C", "D"] (some [10, 20]) none false =
      .error invalidTargetCountMsg := by
  refine ⟨rfl, rfl, rfl, rfl, rfl, rfl⟩

/-- C6 counterexample: at predictors `["LOAN", "MORTDUE"]`, metrics `["BAD"]`,
target values `[1, 0]` and no threshold, the generated text contains no
`0.5`, no threshold comparison `if prediction >`, and no `def score_Model`
signature; its body ends with the multiclass argmax selection and
`return BAD`, refuting the claimed threshold-0.5 ending. -/
theorem C6_counterexample :
    strContains ("0.5") (writeScoreCode envDefault c6Args "").2 = false
    ∧ strContains ("if prediction >") (writeScoreCode envDefault c6Args "").2 = false
    ∧ strContains ("def score_Model") (writeScoreCode envDefault c6Args "").2 = false
    ∧ strEndsWith
        ("    BAD = target_values[prediction.index(max(prediction))]\n    return BAD")
        (writeScoreCode envDefault c6Args "").2 = true := by
  refine ⟨rfl, rfl, rfl, rfl⟩

/-- C6 amended: in that scenario the generated signature is
`def scoreModel(LOAN, MORTDUE):` (no underscore is inserted after `score`)
and the body ends with `target_values = [1, 0]`, the argmax-indexed selection
into the target values, and `return BAD` — target values of length two take
the multiclass path, not the binary threshold path. -/
theorem C6_amended_generated_text :
    (writeScoreCode envDefault c6Args "").2 =
      "import math\nimport pickle\nimport pandas as pd\nimport numpy as np\n"
        ++ "from pathlib import Path\n\n"
        ++ "with open(Path(settings.pickle_path) / \"pickle\", \"rb\") as pickle_model:\n"
        ++ "    model = model.pickle.load(pickle_model)\n\n"
        ++ "def scoreModel(LOAN, MORTDUE):\n    \"Output: BAD\"\n\n"
        ++ "    try:\n        global model\n    except NameError:\n"
        ++ "        with open(Path(settings.pickle_path) / \"pickle\", \"rb\") as pickle_model:\n"
        ++ "                model = model.pickle.load(pickle_model)\n\n"
        ++ "    input_array = pd.DataFrame([[LOAN, MORTDUE]],\n"
        ++ "                              columns=[\"LOAN\", \"MORTDUE\"],\n"
        ++ "                              dtype=float)\n"
        ++ "    prediction = model.predict(input_array)\n"
        ++ "    target_values = [1, 0]\n"
        ++ "    BAD = target_values[prediction.index(max(prediction))]\n"
        ++ "    return BAD"
    ∧ (writeScoreCode envDefault c6Args "").1 = .ok ((writeScoreCode envDefault c6Args "").2) := by
  refine ⟨rfl, rfl⟩

/-- C7: the class attribute `ScoreCode.score_code` is only initialised once
and `write_score_code` never resets it, so a second invocation appends to the
first invocation's text: the first call's entire output is a leading segment
of the second call's output, which therefore contains both generated
`def score...` functions. -/
theorem C7_buffer_accumulates_across_calls :
    (writeScoreCode envDefault firstCallArgs "").2 ≠ ""
    ∧ strStartsWith (writeScoreCode envDefault firstCallArgs "").2
        (writeScoreCode envDefault secondCallArgs
          ((writeScoreCode envDefault firstCallArgs "").2)).2 = true
    ∧ strContains ("def scoreFirst(A1):")
        (writeScoreCode envDefault secondCallArgs
          ((writeScoreCode envDefault firstCallArgs "").2)).2 = true
    ∧ strContains ("def scoreSecond(A1):")
        (writeScoreCode envDefault secondCallArgs
          ((writeScoreCode envDefault firstCallArgs "").2)).2 = true := by
  refine ⟨by decide, rfl, rfl, rfl⟩

/-- C9: the non-binary numeric imputation branch emits `except TypeError`
followed directly by a newline and no colon, for every variable name and
rendered mean, while the binary 0/1 branch emits `except TypeError:`; on a
call with missing values enabled and a non-binary numeric column the emitted
block therefore contains the colon-less line. -/
theorem C9_impute_numeric_missing_colon :
    (∀ var modeVal meanVal : String,
      imputeNumeric var false modeVal meanVal =
        "    try:\n        if math.isnan(" ++ var ++ "):\n            " ++ var ++ " = "
          ++ meanVal ++ "\n    except TypeError\n        " ++ var ++ " = " ++ meanVal ++ "\n"
      ∧ imputeNumeric var true modeVal meanVal =
        "    try:\n        if math.isnan(" ++ var ++ "):\n            " ++ var ++ " = "
          ++ modeVal ++ "\n    except TypeError:\n        " ++ var ++ " = " ++ modeVal ++ "\n")
    ∧ strContains ("except TypeError\n")
        (imputeMissingValues envDefault ["LOAN", "JOB"] ["float64", "object"]) = true
    ∧ strContains ("except TypeError:")
        (imputeNumeric ("LOAN") false "0" "8.5") = false
    ∧ strContains ("except TypeError\n")
        (imputeNumeric ("LOAN") false "0" "8.5") = true
    ∧ strContains ("except TypeError:")
        (imputeNumeric ("LOAN") true "0" "8.5") = true := by
  refine ⟨fun var modeVal meanVal => ⟨rfl, rfl⟩, rfl, rfl, rfl, rfl⟩

/-- C10: the statsmodels prediction block assigns the DataFrame to
`inputArray` but calls the predict method on `input_array`, for every
variable list and method name; on a concrete call the name `input_array`
occurs exactly once, as the call argument, and is never assigned. -/
theorem C10_statsmodels_input_array_mismatch :
    (∀ (methodName : String) (varList : List String),
      predictMethod methodName varList none true =
        "    inputArray = pd.DataFrame([[1.0, " ++ joinComma varList ++ "]],\n"
          ++ "                             columns=[\"const\", "
          ++ joinComma (varList.map (fun c => "\"" ++ c ++ "\"")) ++ "],\n"
          ++ "                             dtype=float)\n    prediction = model."
          ++ methodName ++ "(input_array)\n")
    ∧ countOccur ("input_array") (predictMethod ("predict") ["LOAN", "MORTDUE"] none true) = 1
    ∧ strContains ("inputArray = pd.DataFrame")
        (predictMethod ("predict") ["LOAN", "MORTDUE"] none true) = true
    ∧ strContains ("(input_array)")
        (predictMethod ("predict") ["LOAN", "MORTDUE"] none true) = true
    ∧ strContains ("input_array =")
        (predictMethod ("predict") ["LOAN", "MORTDUE"] none true) = false := by
  refine ⟨fun methodName varList => rfl, rfl, rfl, rfl, rfl⟩

/-- Predictor list with two invalid Python identifiers. -/
def invalidNameArgs : ScoreArgs :=
  { firstCallArgs with inputVarList := ["valid_name", "123bad", "also bad"] }

/-- C3: when any predictor name fails the identifier check, `write_score_code`
raises the `SyntaxError` whose message joins exactly the non-identifier names,
in order, and the shared buffer is returned untouched — the check runs before
any emission.  The second conjunct spells out that the enumerated list holds
all non-identifier names of the input and nothing else. -/
theorem C3_invalid_names_error (env : PyEnv) (a : ScoreArgs) (buf : String)
    (h : a.inputVarList.filter (fun n => !env.isident n) ≠ []) :
    writeScoreCode env a buf =
      (.error (invalidNamesMsg (a.inputVarList.filter (fun n => !env.isident n))), buf)
    ∧ ∀ v, v ∈ a.inputVarList.filter (fun n => !env.isident n) ↔
        (v ∈ a.inputVarList ∧ env.isident v = false) := by
  constructor
  · have h' : 0 < (a.inputVarList.filter (fun n => !env.isident n)).length :=
      List.length_pos.mpr h
    unfold writeScoreCode
    simp [h']
  · intro v
    simp [List.mem_filter]

/-- C3 witness: a concrete invocation with invalid names `123bad` and
`also bad` fails with the enumerating message and leaves the buffer empty. -/
theorem C3_witness :
    invalidNameArgs.inputVarList.filter (fun n => !envDefault.isident n) ≠ []
    ∧ writeScoreCode envDefault invalidNameArgs "" =
        (.error (invalidNamesMsg ["123bad", "also bad"]), "")
    ∧ invalidNamesMsg ["123bad", "also bad"] =
        "The following are not valid variable names: 123bad, also bad. Please confirm "
          ++ "that all variable names can be used as Python variables. E.g. "
          ++ "`str(name).isidentifier() == True`." := by
  refine ⟨by decide, ?_, by rfl⟩
  exact (C3_invalid_names_error envDefault invalidNameArgs "" (by decide)).1

/-- Invocation supplying a threshold of 0.5 with no target values. -/
def thresholdOnlyArgs : ScoreArgs :=
  { firstCallArgs with predictThreshold := some (mkRat 1 2) }

/-- C4 counterexample: a call with `predict_threshold = 0.5` and no target
values raises the expected `ValueError`, but the shared buffer is not left
unchanged — the failed call has already appended the imports, model-load,
signature and prediction sections (here 500 characters onto an empty
buffer), so the claimed atomicity on error is false. -/
theorem C4_counterexample :
    (writeScoreCode envDefault thresholdOnlyArgs "").1 = .error thresholdWithoutTargetMsg
    ∧ (writeScoreCode envDefault thresholdOnlyArgs "").2 ≠ ""
    ∧ strStartsWith ("import math\nimport pickle\n")
        (writeScoreCode envDefault thresholdOnlyArgs "").2 = true
    ∧ strContains ("def scoreFirst(A1):")
        (writeScoreCode envDefault thresholdOnlyArgs "").2 = true := by
  refine ⟨rfl, by decide, rfl, rfl⟩

/-- C4 amended: whenever a nonzero threshold is supplied with target values
absent (`None` or the empty list), the names pass validation and there is no
session, generation fails with the threshold-without-target `ValueError`; the
failure is raised only in the metric-mapping stage, so the failed call leaves
the shared buffer strictly longer than it was (imports, model load, signature
and prediction sections are already appended).  A supplied threshold equal to
0 is falsy in Python and takes the no-target passthrough path instead. -/
theorem C4_threshold_without_targets (env : PyEnv) (a : ScoreArgs) (buf : String) (t : Rat)
    (hthr : a.predictThreshold = some t) (ht : t ≠ 0)
    (htv : a.targetValues = none ∨ a.targetValues = some [])
    (hnames : a.inputVarList.filter (fun n => !env.isident n) = [])
    (hsess : a.sessionVersionIs35 = none) :
    (writeScoreCode env a buf).1 = .error thresholdWithoutTargetMsg
    ∧ buf.length < (writeScoreCode env a buf).2.length := by
  have htb : (t != 0) = true := bne_iff_ne.mpr ht
  have hdisp : predictionsToMetrics env a.metrics a.targetValues a.predictThreshold false =
      .error thresholdWithoutTargetMsg := by
    rcases htv with h | h <;>
      simp [predictionsToMetrics, h, hthr, pyTruthyTV, pyTruthyQ, htb]
  have h19 : (0 : Nat) < ("import math\nimport " : String).length := by decide
  unfold writeScoreCode
  simp only [hnames, List.length_nil, Nat.lt_irrefl, if_false, hsess, hdisp]
  constructor
  · trivial
  · simp only [writeImports, String.length_append]
    omega

/-- C4 witness: the amended statement discharged at the concrete
threshold-0.5 invocation on an empty buffer. -/
theorem C4_witness :
    thresholdOnlyArgs.predictThreshold = some (mkRat 1 2)
    ∧ (mkRat 1 2 : Rat) ≠ 0
    ∧ thresholdOnlyArgs.targetValues = none
    ∧ thresholdOnlyArgs.inputVarList.filter (fun n => !envDefault.isident n) = []
    ∧ thresholdOnlyArgs.sessionVersionIs35 = none
    ∧ (writeScoreCode envDefault thresholdOnlyArgs "").1 = .error thresholdWithoutTargetMsg
    ∧ ("" : String).length < (writeScoreCode envDefault thresholdOnlyArgs "").2.length := by
  have h := C4_threshold_without_targets envDefault thresholdOnlyArgs "" (mkRat 1 2)
    rfl (by decide) (Or.inl rfl) (by decide) rfl
  exact ⟨rfl, by decide, rfl, by decide, rfl, h.1, h.2⟩

/-- C8: `write_score_code` hands `(pickle_type, model_file_name)` positionally
to load helpers declared as `(model_id, model_file_name, pickle_type)` and
`(model_file_name, pickle_type)`, so on both platform paths the emitted
non-H2O load block opens the file named by the `pickle_type` argument and
uses the `model_file_name` argument as the deserialisation module in
`<model_file_name>.load(pickle_model)` — the two arguments are interchanged
relative to their documented roles. -/
theorem C8_model_load_arguments_swapped (env : PyEnv) (a : ScoreArgs) (buf mid : String)
    (hnames : a.inputVarList.filter (fun n => !env.isident n) = [])
    (hmfn : a.modelFileName ≠ "") :
    (∃ rest, (writeScoreCode env { a with sessionVersionIs35 := some false } buf).2 =
      buf ++ writeImports a.pickleType (some false) false false none
        ++ ("with open(Path(settings.pickle_path) / \"" ++ a.pickleType
            ++ "\", \"rb\") as pickle_model:\n    model = " ++ a.modelFileName
            ++ ".load(pickle_model)\n\n") ++ rest)
    ∧ (∃ rest,
        (writeScoreCode env { a with sessionVersionIs35 := some true, modelId := some mid } buf).2 =
      buf ++ writeImports a.pickleType (some true) false false none
        ++ ("model_path = Path(\"/models/resources/viya/" ++ mid
            ++ "\")\nwith open(model_path / \"" ++ a.pickleType
            ++ "\", \"rb\") as pickle_model:\n    model = " ++ a.modelFileName
            ++ ".load(pickle_model)\n\n") ++ rest) := by
  have hbeq : (a.modelFileName == "") = false := by simp [hmfn]
  have hload4 : viya4ModelLoad a.pickleType (some a.modelFileName) false false =
      ("with open(Path(settings.pickle_path) / \"" ++ a.pickleType
         ++ "\", \"rb\") as pickle_model:\n    model = " ++ a.modelFileName
         ++ ".load(pickle_model)\n\n",
       "        with open(Path(settings.pickle_path) / \"" ++ a.pickleType
         ++ "\", \"rb\") as pickle_model:\n                model = " ++ a.modelFileName
         ++ ".load(pickle_model)\n\n") := by
    unfold viya4ModelLoad
    simp [hbeq]
  have hload35 : viya35ModelLoad mid a.pickleType (some a.modelFileName) false false =
      ("model_path = Path(\"/models/resources/viya/" ++ mid
         ++ "\")\nwith open(model_path / \"" ++ a.pickleType
         ++ "\", \"rb\") as pickle_model:\n    model = " ++ a.modelFileName
         ++ ".load(pickle_model)\n\n",
       "        model_path = Path(\"/models/resources/viya/" ++ mid
         ++ "\")\n        with open(model_path / \"" ++ a.pickleType
         ++ "\", \"rb\") as pickle_model:\n            model = " ++ a.modelFileName
         ++ ".load(pickle_model)") := by
    unfold viya35ModelLoad
    simp [hbeq]
  have hsessF : ((some false : Option Bool) == some true) = false := rfl
  have hsessT : ((some true : Option Bool) == some true) = true := rfl
  constructor
  · cases hp : predictionsToMetrics env a.metrics a.targetValues a.predictThreshold false with
    | error e =>
      refine ⟨("def score" ++ a.modelPrefix ++ "(" ++ joinComma a.inputVarList
          ++ "):\n    \"Output: " ++ joinComma a.metrics ++ "\"\n\n")
        ++ ("    try:\n        global model\n    except NameError:\n"
          ++ ("        with open(Path(settings.pickle_path) / \"" ++ a.pickleType
              ++ "\", \"rb\") as pickle_model:\n                model = " ++ a.modelFileName
              ++ ".load(pickle_model)\n\n"))
        ++ (if a.missingValues then imputeMissingValues env a.inputVarList a.inputDtypesList
            else "")
        ++ predictMethod a.predictMethodName a.inputVarList none a.statsmodelsModel, ?_⟩
      unfold writeScoreCode
      simp only [hnames, List.length_nil, lt_self_iff_false, if_false, hp, hload4, hsessF,
        Bool.false_eq_true, String.append_assoc]
    | ok frag =>
      refine ⟨("def score" ++ a.modelPrefix ++ "(" ++ joinComma a.inputVarList
          ++ "):\n    \"Output: " ++ joinComma a.metrics ++ "\"\n\n")
        ++ ("    try:\n        global model\n    except NameError:\n"
          ++ ("        with open(Path(settings.pickle_path) / \"" ++ a.pickleType
              ++ "\", \"rb\") as pickle_model:\n                model = " ++ a.modelFileName
              ++ ".load(pickle_model)\n\n"))
        ++ (if a.missingValues then imputeMissingValues env a.inputVarList a.inputDtypesList
            else "")
        ++ predictMethod a.predictMethodName a.inputVarList none a.statsmodelsModel
        ++ frag, ?_⟩
      unfold writeScoreCode
      simp only [hnames, List.length_nil, lt_self_iff_false, if_false, hp, hload4, hsessF,
        Bool.false_eq_true, String.append_assoc]
  · cases hp : predictionsToMetrics env a.metrics a.targetValues a.predictThreshold false with
    | error e =>
      refine ⟨("def score" ++ a.modelPrefix ++ "(" ++ joinComma a.inputVarList
          ++ "):\n    \"Output: " ++ joinComma a.metrics ++ "\"\n\n")
        ++ ("    try:\n        global model\n    except NameError:\n"
          ++ ("        model_path = Path(\"/models/resources/viya/" ++ mid
              ++ "\")\n        with open(model_path / \"" ++ a.pickleType
              ++ "\", \"rb\") as pickle_model:\n            model = " ++ a.modelFileName
              ++ ".load(pickle_model)"))
        ++ (if a.missingValues then imputeMissingValues env a.inputVarList a.inputDtypesList
            else "")
        ++ predictMethod a.predictMethodName a.inputVarList none a.statsmodelsModel, ?_⟩
      unfold writeScoreCode
      simp only [hnames, List.length_nil, lt_self_iff_false, if_false, hp, hload35, hsessT,
        if_true, String.append_assoc]
    | ok frag =>
      refine ⟨("def score" ++ a.modelPrefix ++ "(" ++ joinComma a.inputVarList
          ++ "):\n    \"Output: " ++ joinComma a.metrics ++ "\"\n\n")
        ++ ("    try:\n        global model\n    except NameError:\n"
          ++ ("        model_path = Path(\"/models/resources/viya/" ++ mid
              ++ "\")\n        with open(model_path / \"" ++ a.pickleType
              ++ "\", \"rb\") as pickle_model:\n            model = " ++ a.modelFileName
              ++ ".load(pickle_model)"))
        ++ (if a.missingValues then imputeMissingValues env a.inputVarList a.inputDtypesList
            else "")
        ++ predictMethod a.predictMethodName a.inputVarList none a.statsmodelsModel
        ++ frag, ?_⟩
      unfold writeScoreCode
      simp only [hnames, List.length_nil, lt_self_iff_false, if_false, hp, hload35, hsessT,
        if_true, String.append_assoc]

/-- C8 witness: the swapped emission exhibited at a concrete call with
`pickle_type = "pickle"` and `model_file_name = "model.pickle"`. -/
theorem C8_witness :
    firstCallArgs.inputVarList.filter (fun n => !envDefault.isident n) = []
    ∧ firstCallArgs.modelFileName ≠ ""
    ∧ ((∃ rest, (writeScoreCode envDefault
          { firstCallArgs with sessionVersionIs35 := some false } "").2 =
        "" ++ writeImports firstCallArgs.pickleType (some false) false false none
          ++ ("with open(Path(settings.pickle_path) / \"" ++ firstCallArgs.pickleType
              ++ "\", \"rb\") as pickle_model:\n    model = " ++ firstCallArgs.modelFileName
              ++ ".load(pickle_model)\n\n") ++ rest)
      ∧ (∃ rest, (writeScoreCode envDefault
            { firstCallArgs with sessionVersionIs35 := some true, modelId := some "uuid-1" } "").2 =
        "" ++ writeImports firstCallArgs.pickleType (some true) false false none
          ++ ("model_path = Path(\"/models/resources/viya/" ++ "uuid-1"
              ++ "\")\nwith open(model_path / \"" ++ firstCallArgs.pickleType
              ++ "\", \"rb\") as pickle_model:\n    model = " ++ firstCallArgs.modelFileName
              ++ ".load(pickle_model)\n\n") ++ rest)) := by
  refine ⟨by decide, by decide, ?_⟩
  exact C8_model_load_arguments_swapped envDefault firstCallArgs "" "uuid-1"
    (by decide) (by decide)

/-- C2: for a single target value equal to 1 the metric-mapping stage always
emits a comparison of the prediction (or, for H2O, the positive-class
probability) against the resolved threshold, which is `0.5` whenever no
`predict_threshold` is supplied; a one-element metrics list yields exactly
one output (`return <label>`), a two-element list exactly two
(`return <label>, <probability>`), and more than two metrics raise the
too-many-metrics `ValueError`. -/
theorem C2_binary_target_threshold (env : PyEnv) (thr : Option Rat) :
    (∀ m : String, predictionsToMetrics env [m] (some [1]) thr false =
      .ok ("    if prediction > " ++ resolvedThreshold env thr ++ ":\n        " ++ m
        ++ " = 1\n    else:\n        " ++ m ++ " = 0\n\nreturn " ++ m))
    ∧ (∀ m : String, predictionsToMetrics env [m] (some [1]) thr true =
      .ok ("    if prediction[1][2] > " ++ resolvedThreshold env thr ++ ":\n        " ++ m
        ++ " = 1\n    else:\n        " ++ m ++ " = 0\n\nreturn " ++ m))
    ∧ (∀ m0 m1 : String, predictionsToMetrics env [m0, m1] (some [1]) thr false =
      .ok ("    if prediction > " ++ resolvedThreshold env thr ++ ":\n        " ++ m0
        ++ " = 1\n    else:\n        " ++ m0 ++ " = 0\n\nreturn " ++ m0 ++ ", prediction"))
    ∧ (∀ m0 m1 : String, predictionsToMetrics env [m0, m1] (some [1]) thr true =
      .ok ("    if prediction[1][2] > " ++ resolvedThreshold env thr ++ ":\n        " ++ m0
        ++ " = 1\n    else:\n        " ++ m0 ++ " = 0\n\nreturn " ++ m0
        ++ ", prediction[1][2]"))
    ∧ (∀ (ms : List String) (h2o : Bool), 2 < ms.length →
        predictionsToMetrics env ms (some [1]) thr h2o =
          .error "Too many metrics were provided for a binary model.")
    ∧ (thr = none → resolvedThreshold env thr = "0.5") := by
  refine ⟨fun m => rfl, fun m => rfl, fun m0 m1 => rfl, fun m0 m1 => rfl, ?_, ?_⟩
  · intro ms h2o h
    match ms with
    | [] => simp at h
    | [_] => simp at h
    | [_, _] => simp at h
    | _ :: _ :: _ :: _ => cases h2o <;> rfl
  · intro h
    subst h
    rfl

/-- C2 witness: the binary path at metrics `["BAD"]` with no threshold
compares against the default 0.5 and returns one output, and four metrics
raise the too-many-metrics error. -/
theorem C2_witness :
    predictionsToMetrics envDefault ["BAD"] (some [1]) none false =
      .ok ("    if prediction > " ++ resolvedThreshold envDefault none ++ ":\n        BAD"
        ++ " = 1\n    else:\n        BAD = 0\n\nreturn BAD")
    ∧ resolvedThreshold envDefault none = "0.5"
    ∧ 2 < (["W", "X", "Y", "Z"] : List String).length
    ∧ predictionsToMetrics envDefault ["W", "X", "Y", "Z"] (some [1]) none false =
        .error "Too many metrics were provided for a binary model." := by
  have h := C2_binary_target_threshold envDefault none
  exact ⟨h.1 ("BAD"), h.2.2.2.2.2 rfl, by decide,
    h.2.2.2.2.1 ["W", "X", "Y", "Z"] false (by decide)⟩

/-! ## Lemmas about the single replacement pass -/

/-- Character membership test. -/
def charIn (c : Char) (l : List Char) : Bool := l.any (fun d => d == c)

/-- A pattern is a prefix of itself followed by anything. -/
theorem pfx_self_append : ∀ (k t : List Char), pfx k (k ++ t) = true
  | [], _ => rfl
  | c :: k', t => by simp [pfx, pfx_self_append k' t]

/-- `firstMatch` only returns nonempty patterns. -/
theorem firstMatch_ne_nil (keys : List (List Char × List Char)) (s k : List Char)
    (r : List Char) (h : firstMatch keys s = some (k, r)) : k ≠ [] := by
  induction keys with
  | nil => simp [firstMatch] at h
  | cons p ks ih =>
    obtain ⟨k', r'⟩ := p
    by_cases hc : (!k'.isEmpty && pfx k' s) = true
    · rw [firstMatch, if_pos hc] at h
      obtain ⟨rfl, rfl⟩ : k' = k ∧ r' = r := by
        constructor <;> injection h with h' <;> cases h' <;> rfl
      intro hnil
      subst hnil
      simp at hc
    · rw [firstMatch, if_neg hc] at h
      exact ih h

/-- Unfolding equation for the fuelled pass on a nonempty text. -/
theorem subAllF_succ_cons (keys : List (List Char × List Char)) (fuel : Nat)
    (c : Char) (cs : List Char) :
    subAllF keys (fuel + 1) (c :: cs) =
      match firstMatch keys (c :: cs) with
      | some (k, r) => r ++ subAllF keys fuel (cs.drop (k.length - 1))
      | none => c :: subAllF keys fuel cs := rfl

/-- The fuel does not matter once it covers the text length. -/
theorem subAllF_fuel (keys : List (List Char × List Char)) :
    ∀ (f g : Nat) (s : List Char), s.length ≤ f → s.length ≤ g →
      subAllF keys f s = subAllF keys g s := by
  intro f
  induction f with
  | zero =>
    intro g s hf _
    have hz : s = [] := List.eq_nil_of_length_eq_zero (Nat.le_zero.mp hf)
    subst hz
    cases g <;> rfl
  | succ f ih =>
    intro g s hf hg
    cases s with
    | nil => cases g <;> rfl
    | cons c cs =>
      cases g with
      | zero => simp at hg
      | succ g' =>
        rw [subAllF_succ_cons, subAllF_succ_cons]
        cases hm : firstMatch keys (c :: cs) with
        | none =>
          have h1 : cs.length ≤ f := by simpa using hf
          have h2 : cs.length ≤ g' := by simpa using hg
          show c :: subAllF keys f cs = c :: subAllF keys g' cs
          rw [ih g' cs h1 h2]
        | some p =>
          obtain ⟨k, r⟩ := p
          have h1 : (cs.drop (k.length - 1)).length ≤ f := by
            simp only [List.length_drop]
            simp at hf
            omega
          have h2 : (cs.drop (k.length - 1)).length ≤ g' := by
            simp only [List.length_drop]
            simp at hg
            omega
          show r ++ subAllF keys f (cs.drop (k.length - 1))
              = r ++ subAllF keys g' (cs.drop (k.length - 1))
          rw [ih g' _ h1 h2]

/-- Step of the pass when nothing matches at the current position. -/
theorem subAll_cons_none (keys : List (List Char × List Char)) (c : Char)
    (cs : List Char) (hm : firstMatch keys (c :: cs) = none) :
    subAll keys (c :: cs) = c :: subAll keys cs := by
  show subAllF keys (cs.length + 1) (c :: cs) = c :: subAllF keys cs.length cs
  rw [subAllF_succ_cons, hm]

/-- Step of the pass at a matching position: the replacement is emitted, the
match is consumed, and it is not rescanned. -/
theorem subAll_match (keys : List (List Char × List Char)) (k b r : List Char)
    (hm : firstMatch keys (k ++ b) = some (k, r)) :
    subAll keys (k ++ b) = r ++ subAll keys b := by
  have hne : k ≠ [] := firstMatch_ne_nil keys (k ++ b) k r hm
  obtain ⟨c, k', rfl⟩ : ∃ c k', k = c :: k' := by
    cases k with
    | nil => exact absurd rfl hne
    | cons c k' => exact ⟨c, k', rfl⟩
  have hm' : firstMatch keys (c :: (k' ++ b)) = some (c :: k', r) := hm
  show subAllF keys ((k' ++ b).length + 1) (c :: (k' ++ b)) = r ++ subAll keys b
  rw [subAllF_succ_cons, hm']
  show r ++ subAllF keys (k' ++ b).length ((k' ++ b).drop ((c :: k').length - 1))
      = r ++ subAll keys b
  have hdrop : (c :: k').length - 1 = k'.length := by simp
  rw [hdrop, List.drop_left]
  congr 1
  exact subAllF_fuel keys _ _ b (by simp) (le_refl _)

/-- The pass copies a region at whose positions nothing matches. -/
theorem subAll_skip (keys : List (List Char × List Char)) :
    ∀ (a t : List Char),
      (∀ i, i < a.length → firstMatch keys ((a ++ t).drop i) = none) →
      subAll keys (a ++ t) = a ++ subAll keys t := by
  intro a
  induction a with
  | nil => intro t _; rfl
  | cons c a' ih =>
    intro t h
    have h0 : firstMatch keys (c :: (a' ++ t)) = none := by
      have := h 0 (by simp)
      simpa using this
    have hrest : ∀ i, i < a'.length → firstMatch keys ((a' ++ t).drop i) = none := by
      intro i hi
      have := h (i + 1) (by simp; omega)
      simpa using this
    calc subAll keys ((c :: a') ++ t)
        = c :: subAll keys (a' ++ t) := subAll_cons_none keys c (a' ++ t) h0
      _ = c :: (a' ++ subAll keys t) := by rw [ih t hrest]
      _ = (c :: a') ++ subAll keys t := rfl

/-- The pass is the identity on a text at whose positions nothing matches. -/
theorem subAll_id (keys : List (List Char × List Char)) (s : List Char)
    (h : ∀ i, i < s.length → firstMatch keys (s.drop i) = none) :
    subAll keys s = s := by
  have hnil : subAll keys [] = [] := rfl
  have := subAll_skip keys s [] (by simpa using h)
  simpa [hnil] using this

/-- Boolean form of the no-match-within-a-region condition, decidable on
concrete segments. -/
def noMatchAll (keys : List (List Char × List Char)) (a t : List Char) : Bool :=
  (List.range a.length).all (fun i => (firstMatch keys ((a ++ t).drop i)).isNone)

theorem noMatchAll_spec (keys : List (List Char × List Char)) (a t : List Char)
    (h : noMatchAll keys a t = true) :
    ∀ i, i < a.length → firstMatch keys ((a ++ t).drop i) = none := by
  intro i hi
  have := List.all_eq_true.mp h i (List.mem_range.mpr hi)
  exact Option.isNone_iff_eq_none.mp this

/-- Strings with the same character list are equal. -/
theorem strEq (x y : String) (h : x.toList = y.toList) : x = y := by
  cases x with
  | mk dx =>
    cases y with
    | mk dy =>
      simp only [String.toList] at h
      rw [h]

/-- `toList` distributes over append. -/
theorem toListAppend (a b : String) : (a ++ b).toList = a.toList ++ b.toList := by
  cases a; cases b; rfl

/-- Unfolding equation for `splitCh` on a nonempty list. -/
theorem splitCh_cons (c d : Char) (l : List Char) :
    splitCh c (d :: l) =
      if d == c then [] :: splitCh c l
      else
        match splitCh c l with
        | [] => [[d]]
        | g :: gs => (d :: g) :: gs := rfl

/-- Splitting takes off one separator-free line at a time. -/
theorem splitCh_line (c : Char) : ∀ (x rest : List Char), charIn c x = false →
    splitCh c (x ++ c :: rest) = x :: splitCh c rest := by
  intro x
  induction x with
  | nil =>
    intro rest _
    show splitCh c (c :: rest) = [] :: splitCh c rest
    simp [splitCh_cons]
  | cons d ds ih =>
    intro rest hx
    have hx' : ¬d = c ∧ charIn c ds = false := by
      simpa [charIn] using hx
    have hd : (d == c) = false := beq_eq_false_iff_ne.mpr hx'.1
    show splitCh c (d :: (ds ++ c :: rest)) = (d :: ds) :: splitCh c rest
    rw [splitCh_cons, hd]
    simp only [Bool.false_eq_true, if_false]
    rw [ih rest hx'.2]

/-- The `dcl` block splits into one line per output variable, in list order,
with `varchar(100)` for string-typed variables and `double` otherwise. -/
theorem dclString_lines : ∀ (outVars : List OutVar),
    (∀ v ∈ outVars, charIn '\n' v.name.toList = false) →
    splitCh '\n' (dclString outVars).toList =
      outVars.map (fun v => ("dcl "
        ++ (if v.type == "string" then "varchar(100) " else "double ")
        ++ v.name ++ ";").toList) ++ [[]] := by
  intro outVars
  induction outVars with
  | nil => intro _; rfl
  | cons v vs ih =>
    intro h
    have hv : charIn '\n' v.name.toList = false := h v (by simp)
    have hvs := ih (fun w hw => h w (by simp [hw]))
    have hsemi : (";\n" : String).toList = ';' :: '\n' :: [] := rfl
    have hsemi1 : (";" : String).toList = [';'] := rfl
    have hsplit : (dclString (v :: vs)).toList =
        ("dcl " ++ (if v.type == "string" then "varchar(100) " else "double ")
          ++ v.name ++ ";").toList ++ '\n' :: (dclString vs).toList := by
      show (dclLine v ++ dclString vs).toList = _
      simp [dclLine, toListAppend, hsemi, hsemi1, List.append_assoc]
    have hclean : charIn '\n'
        (("dcl " ++ (if v.type == "string" then "varchar(100) " else "double ")
          ++ v.name ++ ";").toList) = false := by
      cases htype : (v.type == "string") <;>
        simp [charIn, toListAppend, List.any_append, htype] <;>
        simpa [charIn] using hv
    rw [hsplit, splitCh_line '\n' _ _ hclean, hvs]
    rfl

/-- The full MAS wrapper text: four free segments around the three fixed
patterns. -/
def masFullText (a1 a2 a3 a4 : String) : String :=
  a1 ++ masKey1 ++ a2 ++ masKey2 ++ a3 ++ masKey3 ++ a4

/-- C5: for a MAS text of the shape `a1 K1 a2 K2 a3 K3 a4` around the three
fixed patterns, with no pattern matching anywhere inside the free segments,
`convert_mas_to_cas` is exactly the single left-to-right alternation pass:
each pattern is replaced once by its fixed replacement — the package header
by the data-step header, the int declaration by the double declaration
followed by the `dcl` block, the endpackage marker by the run-method
epilogue computed from the original text — and every other character is left
unchanged; and the `dcl` block consists of exactly one `dcl` line per output
variable, in the remote list's order, `varchar(100)` for string-typed
variables and `double` for all others. -/
theorem C5_convert_mas_to_cas (outVars : List OutVar) (a1 a2 a3 a4 : String)
    (h1 : noMatchAll (masKeys outVars (masFullText a1 a2 a3 a4)) a1.toList
      (masKey1.toList ++ (a2.toList ++ (masKey2.toList ++ (a3.toList
        ++ (masKey3.toList ++ a4.toList))))) = true)
    (h2 : noMatchAll (masKeys outVars (masFullText a1 a2 a3 a4)) a2.toList
      (masKey2.toList ++ (a3.toList ++ (masKey3.toList ++ a4.toList))) = true)
    (h3 : noMatchAll (masKeys outVars (masFullText a1 a2 a3 a4)) a3.toList
      (masKey3.toList ++ a4.toList) = true)
    (h4 : noMatchAll (masKeys outVars (masFullText a1 a2 a3 a4)) a4.toList [] = true)
    (hnm : ∀ v ∈ outVars, charIn '\n' v.name.toList = false) :
    convertMasToCas outVars (masFullText a1 a2 a3 a4) =
      a1 ++ casRep1 ++ a2 ++ casRep2 outVars ++ a3
        ++ endBlock (masFullText a1 a2 a3 a4) ++ a4
    ∧ splitCh '\n' (dclString outVars).toList =
        outVars.map (fun v => ("dcl "
          ++ (if v.type == "string" then "varchar(100) " else "double ")
          ++ v.name ++ ";").toList) ++ [[]] := by
  refine ⟨?_, dclString_lines outVars hnm⟩
  have hfull : (masFullText a1 a2 a3 a4).toList =
      a1.toList ++ (masKey1.toList ++ (a2.toList ++ (masKey2.toList ++ (a3.toList
        ++ (masKey3.toList ++ a4.toList))))) := by
    simp [masFullText, toListAppend, List.append_assoc]
  have hne1 : ¬masKey1.data = [] := by decide
  have hne2 : ¬masKey2.data = [] := by decide
  have hne3 : ¬masKey3.data = [] := by decide
  have hp12 : ∀ rest : List Char, pfx masKey1.data (masKey2.data ++ rest) = false :=
    fun _ => rfl
  have hp13 : ∀ rest : List Char, pfx masKey1.data (masKey3.data ++ rest) = false :=
    fun _ => rfl
  have hp23 : ∀ rest : List Char, pfx masKey2.data (masKey3.data ++ rest) = false :=
    fun _ => rfl
  have hb1 : ∀ rest : List Char,
      firstMatch (masKeys outVars (masFullText a1 a2 a3 a4)) (masKey1.toList ++ rest) =
        some (masKey1.toList, casRep1.toList) := by
    intro rest
    simp [masKeys, firstMatch, pfx_self_append, hne1]
  have hb2 : ∀ rest : List Char,
      firstMatch (masKeys outVars (masFullText a1 a2 a3 a4)) (masKey2.toList ++ rest) =
        some (masKey2.toList, (casRep2 outVars).toList) := by
    intro rest
    simp [masKeys, firstMatch, pfx_self_append, hne2, hp12]
  have hb3 : ∀ rest : List Char,
      firstMatch (masKeys outVars (masFullText a1 a2 a3 a4)) (masKey3.toList ++ rest) =
        some (masKey3.toList, (endBlock (masFullText a1 a2 a3 a4)).toList) := by
    intro rest
    simp [masKeys, firstMatch, pfx_self_append, hne3, hp13, hp23]
  have h4' : ∀ i, i < a4.toList.length →
      firstMatch (masKeys outVars (masFullText a1 a2 a3 a4)) (a4.toList.drop i) = none := by
    have := noMatchAll_spec _ _ _ h4
    simpa using this
  apply strEq
  show subAll (masKeys outVars (masFullText a1 a2 a3 a4)) (masFullText a1 a2 a3 a4).toList =
    (a1 ++ casRep1 ++ a2 ++ casRep2 outVars ++ a3
      ++ endBlock (masFullText a1 a2 a3 a4) ++ a4).toList
  rw [hfull]
  rw [subAll_skip _ _ _ (noMatchAll_spec _ _ _ h1)]
  rw [subAll_match _ _ _ _ (hb1 _)]
  rw [subAll_skip _ _ _ (noMatchAll_spec _ _ _ h2)]
  rw [subAll_match _ _ _ _ (hb2 _)]
  rw [subAll_skip _ _ _ (noMatchAll_spec _ _ _ h3)]
  rw [subAll_match _ _ _ _ (hb3 _)]
  rw [subAll_id _ _ h4']
  simp [toListAppend, List.append_assoc]

/-- Output variables of the sample model: one numeric, one string. -/
def sampleOutVars : List OutVar := [⟨"CLASS", "decimal"⟩, ⟨"NAME", "string"⟩]

/-- Free segment between the package header and the int declaration. -/
def sampleA2 : String := "\ndcl package pymas py;\n"

/-- Free segment holding the `score(...)` signature and the call body. -/
def sampleA3 : String :=
  "\n\nmethod score(double LOAN, varchar(100) NAME, in_out double CLASS);\n"
    ++ "    resultCode = py.execute();\n"

/-- Trailing free segment. -/
def sampleA4 : String := "\n"

/-- C5 witness: the conversion theorem discharged on a concrete sample MAS
wrapper, together with the fully evaluated round-trip text showing the two
`dcl` lines (`double CLASS`, then `varchar(100) NAME`) in remote order and
the derived run-method epilogue. -/
theorem C5_witness :
    (convertMasToCas sampleOutVars (masFullText "" sampleA2 sampleA3 sampleA4) =
      "" ++ casRep1 ++ sampleA2 ++ casRep2 sampleOutVars ++ sampleA3
        ++ endBlock (masFullText "" sampleA2 sampleA3 sampleA4) ++ sampleA4
    ∧ splitCh '\n' (dclString sampleOutVars).toList =
        sampleOutVars.map (fun v => ("dcl "
          ++ (if v.type == "string" then "varchar(100) " else "double ")
          ++ v.name ++ ";").toList) ++ [[]])
    ∧ convertMasToCas sampleOutVars (masFullText "" sampleA2 sampleA3 sampleA4) =
      "data sasep.out;\ndcl package pymas py;\ndcl double resultCode revision;\n"
        ++ "dcl double CLASS;\ndcl varchar(100) NAME;\n\n\n"
        ++ "method score(double LOAN, varchar(100) NAME, in_out double CLASS);\n"
        ++ "    resultCode = py.execute();\n"
        ++ "method run();\n    set SASEP.IN;\n    score(LOAN, NAME, CLASS);\nend;\nenddata;\n" := by
  refine ⟨?_, by rfl⟩
  exact C5_convert_mas_to_cas sampleOutVars "" sampleA2 sampleA3 sampleA4
    (by decide) (by decide) (by decide) (by decide) (by decide)
